import Mathlib

/-!
Verification of the WaterTAP zero-order SIDO (single-inlet, double-outlet)
mass-balance builder against its natural-language specification.

The repository excerpt provides the SIDO test suite
(`watertap/core/tests/test_zero_order_sido.py`) and the constructed-wetlands
declaration (`watertap/unit_models/zero_order/constructed_wetlands_zo.py`).
The implementation module `watertap/core/zero_order_sido.py` itself is not part
of the excerpt, so the builder, its equation system, its initialization
routine, its scaling policy and its reporting contract are modelled here from
the specification (sections 3 and 4 of the spec), with the concrete constants
pinned by the test suite's assertions.

All stream quantities are modelled as exact rationals (`ℚ`); the solver's
floating-point arithmetic is replaced by exact algebra, which is the intended
mathematical content of the zero-order equations.
-/

namespace WaterTAP

/-- A state block of the water property package: one volumetric flow and one
mass concentration per solute identifier. Modelled from the spec: a stream
holds `flow_vol` and `conc_mass_comp[j]` for every solute `j` (spec section 3,
"Stream"). Concentrations are total functions on solute identifiers; only the
values at members of the unit's solute set are meaningful. -/
structure WaterStateBlock where
  flow_vol : ℚ
  conc_mass_comp : String → ℚ

/-- A SIDO unit after `build_sido` ran. Modelled from the spec: one inlet
state block, two outlet state blocks (treated, byproduct), the two performance
variables `recovery_vol` and `removal_frac_mass_solute[j]`, and the solute set
shared with the property package (spec sections 3 and 4.1). The two boolean
fields record whether the performance variables are fixed by the caller, which
the report renders in its "Fixed" column. -/
structure SIDOUnit where
  solute_list : List String
  properties_in : WaterStateBlock
  properties_treated : WaterStateBlock
  properties_byproduct : WaterStateBlock
  recovery_vol : ℚ
  removal_frac_mass_solute : String → ℚ
  recovery_vol_fixed : Bool
  removal_frac_fixed : String → Bool

/-- Modelled from the spec: invariant 2 of section 3,
`flow_vol(treated) = recovery_vol * flow_vol(inlet)`, the scalar
`water_recovery_equation` constraint generated by `build_sido`. -/
def water_recovery_equation (u : SIDOUnit) : Prop :=
  u.recovery_vol * u.properties_in.flow_vol = u.properties_treated.flow_vol

/-- Modelled from the spec: invariant 1 of section 3,
`flow_vol(inlet) = flow_vol(treated) + flow_vol(byproduct)`, the scalar
`flow_balance` constraint generated by `build_sido`. -/
def flow_balance (u : SIDOUnit) : Prop :=
  u.properties_in.flow_vol
    = u.properties_treated.flow_vol + u.properties_byproduct.flow_vol

/-- Modelled from the spec: invariant 3 of section 3, for solute `j` the mass
removed from the treated stream (routed to byproduct) equals
`removal_frac_mass_solute[j]` times the inlet mass flow
`flow_vol(inlet) * conc_mass_comp(inlet, j)`; the per-solute
`solute_removal_equation` constraint generated by `build_sido`. -/
def solute_removal_equation (u : SIDOUnit) (j : String) : Prop :=
  u.removal_frac_mass_solute j * u.properties_in.flow_vol
      * u.properties_in.conc_mass_comp j
    = u.properties_byproduct.flow_vol * u.properties_byproduct.conc_mass_comp j

/-- Modelled from the spec: invariant 4 of section 3, the per-solute mass
balance
`flow_vol(inlet)*conc(inlet,j) = flow_vol(treated)*conc(treated,j) + flow_vol(byproduct)*conc(byproduct,j)`;
the per-solute `solute_treated_equation` constraint generated by
`build_sido`. -/
def solute_treated_equation (u : SIDOUnit) (j : String) : Prop :=
  u.properties_in.flow_vol * u.properties_in.conc_mass_comp j
    = u.properties_treated.flow_vol * u.properties_treated.conc_mass_comp j
      + u.properties_byproduct.flow_vol * u.properties_byproduct.conc_mass_comp j

/-- A state of a SIDO unit is feasible (solved) when all four constraint
families of section 3 of the spec hold: the two scalar flow equations and, for
every solute in the unit's solute set, the removal equation and the per-solute
mass balance. -/
def sidoFeasible (u : SIDOUnit) : Prop :=
  water_recovery_equation u ∧ flow_balance u ∧
    ∀ j ∈ u.solute_list, solute_removal_equation u j ∧ solute_treated_equation u j

instance (u : SIDOUnit) : Decidable (water_recovery_equation u) :=
  inferInstanceAs (Decidable
    (u.recovery_vol * u.properties_in.flow_vol = u.properties_treated.flow_vol))

instance (u : SIDOUnit) : Decidable (flow_balance u) :=
  inferInstanceAs (Decidable
    (u.properties_in.flow_vol
      = u.properties_treated.flow_vol + u.properties_byproduct.flow_vol))

instance (u : SIDOUnit) (j : String) : Decidable (solute_removal_equation u j) :=
  inferInstanceAs (Decidable
    (u.removal_frac_mass_solute j * u.properties_in.flow_vol
        * u.properties_in.conc_mass_comp j
      = u.properties_byproduct.flow_vol * u.properties_byproduct.conc_mass_comp j))

instance (u : SIDOUnit) (j : String) : Decidable (solute_treated_equation u j) :=
  inferInstanceAs (Decidable
    (u.properties_in.flow_vol * u.properties_in.conc_mass_comp j
      = u.properties_treated.flow_vol * u.properties_treated.conc_mass_comp j
        + u.properties_byproduct.flow_vol * u.properties_byproduct.conc_mass_comp j))

instance (u : SIDOUnit) : Decidable (sidoFeasible u) :=
  inferInstanceAs (Decidable
    (water_recovery_equation u ∧ flow_balance u ∧
      ∀ j ∈ u.solute_list, solute_removal_equation u j ∧ solute_treated_equation u j))

/-- Modelled from the spec: the deterministic, non-iterative seeding procedure
`initialize_sido` of spec section 4.1. Step 1 seeds the treated flow as
`recovery_vol * inlet.flow_vol`; step 2 seeds the byproduct flow as the
remainder; step 3 derives the treated concentration from the retained solute
mass flow `(1 - removal_frac) * inlet_mass_flow` divided by the treated flow,
and the byproduct concentration from the remaining solute mass flow divided by
the byproduct flow. Inlet values and performance parameters are untouched.
In `ℚ` the division-by-zero failure branch of step 4 is totalised by the
convention `x / 0 = 0`. -/
def init_sido (u : SIDOUnit) : SIDOUnit :=
  { u with
    properties_treated :=
      { flow_vol := u.recovery_vol * u.properties_in.flow_vol
        conc_mass_comp := fun j =>
          Rat.div
            ((1 - u.removal_frac_mass_solute j) * u.properties_in.flow_vol
              * u.properties_in.conc_mass_comp j)
            (u.recovery_vol * u.properties_in.flow_vol) }
    properties_byproduct :=
      { flow_vol :=
          u.properties_in.flow_vol - u.recovery_vol * u.properties_in.flow_vol
        conc_mass_comp := fun j =>
          Rat.div
            (u.properties_in.flow_vol * u.properties_in.conc_mass_comp j
              - (1 - u.removal_frac_mass_solute j) * u.properties_in.flow_vol
                * u.properties_in.conc_mass_comp j)
            (u.properties_in.flow_vol - u.recovery_vol * u.properties_in.flow_vol) } }

/-- The identifiers of the four constraint families generated by `build_sido`.
Modelled from the spec: four named constraint collections
`water_recovery_equation`, `flow_balance` (scalar) and
`solute_removal_equation`, `solute_treated_equation` (indexed per solute)
(spec sections 4.1 and 6). -/
inductive SIDOConstraint where
  | water_recovery_equation : SIDOConstraint
  | flow_balance : SIDOConstraint
  | solute_removal_equation : String → SIDOConstraint
  | solute_treated_equation : String → SIDOConstraint
deriving DecidableEq

/-- The family name of a constraint member, as exposed to callers. -/
def SIDOConstraint.familyName : SIDOConstraint → String
  | .water_recovery_equation => "water_recovery_equation"
  | .flow_balance => "flow_balance"
  | .solute_removal_equation _ => "solute_removal_equation"
  | .solute_treated_equation _ => "solute_treated_equation"

/-- True exactly on members of the scalar flow-type families
(`water_recovery_equation`, `flow_balance`). -/
def SIDOConstraint.isFlowType : SIDOConstraint → Bool
  | .water_recovery_equation => true
  | .flow_balance => true
  | _ => false

/-- True exactly on members of the `water_recovery_equation` family. -/
def SIDOConstraint.isWaterRecovery : SIDOConstraint → Bool
  | .water_recovery_equation => true
  | _ => false

/-- True exactly on members of the `flow_balance` family. -/
def SIDOConstraint.isFlowBalance : SIDOConstraint → Bool
  | .flow_balance => true
  | _ => false

/-- True exactly on members of the `solute_removal_equation` family. -/
def SIDOConstraint.isSoluteRemoval : SIDOConstraint → Bool
  | .solute_removal_equation _ => true
  | _ => false

/-- True exactly on members of the `solute_treated_equation` family. -/
def SIDOConstraint.isSoluteTreated : SIDOConstraint → Bool
  | .solute_treated_equation _ => true
  | _ => false

/-- The full list of constraint members generated by `build_sido` over a given
solute set: one `water_recovery_equation`, one `flow_balance`, and one
`solute_removal_equation` and one `solute_treated_equation` per solute.
Modelled from the spec (section 4.1): "Four constraint families exactly as the
four invariants in section 3, each indexed appropriately (scalar for
flow/recovery equations, per-solute for removal/balance equations)". -/
def sidoConstraintList (solutes : List String) : List SIDOConstraint :=
  [.water_recovery_equation, .flow_balance]
    ++ solutes.map .solute_removal_equation
    ++ solutes.map .solute_treated_equation

/-- Modelled from the spec: the fixed protocol constant `1e3` applied to
water-balance-type equations by `calculate_scaling_factors_sido`
(spec section 4.1, "Scaling-factor policy"). -/
def flow_equation_scaling_factor : ℚ := 1000

/-- Modelled from the spec: the fixed protocol constant `1e5` applied to
solute-type equations by `calculate_scaling_factors_sido`
(spec section 4.1, "Scaling-factor policy"). -/
def solute_equation_scaling_factor : ℚ := 100000

/-- Modelled from the spec: `calculate_scaling_factors_sido` attaches a
constraint scaling factor to each generated constraint. The factors are the
fixed protocol constants above, chosen by constraint family only; the current
values of the unit's flow and concentration variables are not consulted
(spec section 8, property 4: "regardless of input magnitudes"). -/
def calculate_scaling_factors_sido (_u : SIDOUnit) : SIDOConstraint → ℚ :=
  fun c => if c.isFlowType then flow_equation_scaling_factor
           else solute_equation_scaling_factor

/-- The identifiers of the variables a SIDO unit owns: inlet, treated and
byproduct flows and per-solute concentrations, plus the two performance
variables. Modelled from the spec (sections 3 and 4.1). -/
inductive SIDOVar where
  | inlet_flow_vol : SIDOVar
  | treated_flow_vol : SIDOVar
  | byproduct_flow_vol : SIDOVar
  | recovery_vol : SIDOVar
  | inlet_conc_mass_comp : String → SIDOVar
  | treated_conc_mass_comp : String → SIDOVar
  | byproduct_conc_mass_comp : String → SIDOVar
  | removal_frac_mass_solute : String → SIDOVar
deriving DecidableEq

/-- All variables of a SIDO unit over a given solute set. -/
def sidoVariables (solutes : List String) : List SIDOVar :=
  [.inlet_flow_vol, .treated_flow_vol, .byproduct_flow_vol, .recovery_vol]
    ++ solutes.map .inlet_conc_mass_comp
    ++ solutes.map .treated_conc_mass_comp
    ++ solutes.map .byproduct_conc_mass_comp
    ++ solutes.map .removal_frac_mass_solute

/-- The variables fixed by the caller before solving: the inlet flow, every
inlet concentration, `recovery_vol` and every removal fraction
(spec section 3, "Lifecycle"). -/
def sidoFixedVariables (solutes : List String) : List SIDOVar :=
  [.inlet_flow_vol, .recovery_vol]
    ++ solutes.map .inlet_conc_mass_comp
    ++ solutes.map .removal_frac_mass_solute

/-- Degrees of freedom of the SIDO unit once the fixed variables are fixed:
free (unfixed) variables minus equations, as counted by the modeling
framework's degrees-of-freedom counter (spec glossary). The four constraint
families are mutually independent equations. -/
def sido_degrees_of_freedom (solutes : List String) : ℤ :=
  ((sidoVariables solutes).length : ℤ)
    - ((sidoFixedVariables solutes).length : ℤ)
    - ((sidoConstraintList solutes).length : ℤ)

/-- A boundary port of a unit: a name and the list of state-variable names it
exposes for connection to neighboring units. Modelled from the spec: ports are
"purely a naming/exposure contract, not computation" (spec section 4.1). -/
structure UnitPort where
  name : String
  port_members : List String
deriving DecidableEq

/-- The boundary ports attached by `build_sido`, each exposing `flow_vol` and
`conc_mass_comp`. Modelled from the spec (sections 4.1 and 6, with the port
set pinned by the test suite's `test_build`): `inlet`, `treated` and
`byproduct`. -/
def sido_ports : List UnitPort :=
  [{ name := "inlet", port_members := ["flow_vol", "conc_mass_comp"] },
   { name := "treated", port_members := ["flow_vol", "conc_mass_comp"] },
   { name := "byproduct", port_members := ["flow_vol", "conc_mass_comp"] }]

/-- The internal routing attributes consumed by the shared base-class
machinery. Modelled from the spec (section 6): a technology-type tag (string
or unset), a stream-table dictionary (display name to port name) and a
performance-variable dictionary (display label to variable name), with the
exact contents pinned by the test suite's `test_private_attributes`. -/
structure ZeroOrderAttrs where
  tech_type : Option String
  stream_table_names : List (String × String)
  perf_var_names : List (String × String)
deriving DecidableEq

/-- The routing attributes as left by `ZeroOrderBaseData.build` before any
topology builder runs: the technology tag unset and both dictionaries
empty. -/
def zero_order_base_attrs : ZeroOrderAttrs :=
  { tech_type := none, stream_table_names := [], perf_var_names := [] }

/-- The effect of `build_sido` on the routing attributes: it fills the
stream-table dictionary with the three SIDO streams and the
performance-variable dictionary with the two performance variables, and does
not touch the technology tag. -/
def build_sido_attrs (a : ZeroOrderAttrs) : ZeroOrderAttrs :=
  { a with
    stream_table_names :=
      [("Inlet", "inlet"), ("Treated", "treated"), ("Byproduct", "byproduct")]
    perf_var_names :=
      [("Water Recovery", "recovery_vol"),
       ("Solute Removal", "removal_frac_mass_solute")] }

/-- The effect of `build_siso` on the routing attributes. Modelled from the
spec: the SISO variant is "structurally analogous with one outlet removed"
(spec section 2), so the byproduct stream is absent; the technology tag is not
touched. -/
def build_siso_attrs (a : ZeroOrderAttrs) : ZeroOrderAttrs :=
  { a with
    stream_table_names := [("Inlet", "inlet"), ("Treated", "treated")]
    perf_var_names :=
      [("Water Recovery", "recovery_vol"),
       ("Solute Removal", "removal_frac_mass_solute")] }

/-- The routing attributes of the bare `DerivedSIDO` test unit, whose `build`
is `ZeroOrderBaseData.build` followed by `build_sido`. -/
def derived_sido_attrs : ZeroOrderAttrs := build_sido_attrs zero_order_base_attrs

/-- The routing attributes of `ConstructedWetlandsZOData` after `build`: per
`constructed_wetlands_zo.py`, the base build runs, then `_tech_type` is set to
`"constructed_wetlands"`, then `build_siso` runs. -/
def constructed_wetlands_attrs : ZeroOrderAttrs :=
  build_siso_attrs
    { zero_order_base_attrs with tech_type := some "constructed_wetlands" }

/-- Number of decimal digits of a natural number, with explicit fuel so that
the definition is structurally recursive. -/
def digitCountAux : ℕ → ℕ → ℕ
  | 0, _ => 1
  | fuel + 1, n => if n < 10 then 1 else digitCountAux fuel (n / 10) + 1

/-- Number of decimal digits of a natural number (`digitCount 0 = 1`). -/
def digitCount (n : ℕ) : ℕ := digitCountAux n n

/-- Pads a digit string with leading zeros to the requested width. -/
def leftPad0 (width : ℕ) (s : String) : String :=
  String.mk (List.replicate (width - s.length) '0') ++ s

/-- Modelled from the spec: the report's numeric formatting of performance and
computed stream values, "fixed-width right-aligned numeric formatting to 5
significant decimal digits" (spec section 4.1) — the `#.5g` float format: five
significant digits with the decimal point and trailing zeros kept. Defined for
nonnegative rationals, which is the range of all reported quantities; values
below 1 are rendered with five fractional digits, and ties round up. -/
def fmtG5 (q : ℚ) : String :=
  let a := q.num.toNat
  let b := q.den
  let ip := a / b
  let decs := if ip = 0 then 5 else 5 - digitCount ip
  let scale := 10 ^ decs
  let m := (a * scale * 2 + b) / (2 * b)
  toString (m / scale) ++ "." ++ leftPad0 decs (toString (m % scale))

/-- Rendering of a fixed (caller-supplied) stream value in the stream table:
integer-valued fixed inputs keep their plain integer form (as in the test's
expected report, where the inlet column shows `42`, `10`, `20`, `30`), and any
other value uses the five-significant-digit format. -/
def fmtFixedVal (q : ℚ) : String :=
  if q.den = 1 then toString q.num else fmtG5 q

/-- Rendering of a boolean flag in the report's "Fixed" column. -/
def pyBool (b : Bool) : String := if b then "True" else "False"

/-- The smallest power of ten that clears the denominator of a nonnegative
rational (bounded search; all reported bounds terminate well inside the
bound). -/
def decimalExponent (q : ℚ) : ℕ :=
  ((List.range 40).find? (fun k => q.num.toNat * 10 ^ k % q.den == 0)).getD 0

/-- Exact positional decimal rendering of a nonnegative rational with a
terminating decimal expansion (minimal number of fractional digits). -/
def decimalRepr (q : ℚ) : String :=
  let k := decimalExponent q
  let n := q.num.toNat * 10 ^ k / q.den
  if k = 0 then toString n
  else toString (n / 10 ^ k) ++ "." ++ leftPad0 k (toString (n % 10 ^ k))

/-- The smallest power of ten that lifts a positive rational to at least 1
(bounded search), i.e. the magnitude of the negative decimal exponent. -/
def scientificExponent (q : ℚ) : ℕ :=
  ((List.range 40).find? (fun k => q.den ≤ q.num.toNat * 10 ^ k)).getD 0

/-- Rendering of a declared bound value in the report's "Bounds" column,
following the source-language value display: integers print bare (`0`),
values of magnitude at least `1e-4` print positionally (`1.0000001`), and
smaller positive values print in scientific notation with a two-digit
exponent (`1e-08`). -/
def boundValueRepr (q : ℚ) : String :=
  if q.den = 1 then toString q.num
  else if mkRat 1 10000 ≤ q then decimalRepr q
  else
    let e := scientificExponent q
    decimalRepr (mkRat (q.num * 10 ^ e) q.den)
      ++ "e-" ++ (if e < 10 then "0" ++ toString e else toString e)

/-- Rendering of an optional bound (`None` when absent). -/
def boundRepr : Option ℚ → String
  | none => "None"
  | some q => boundValueRepr q

/-- Rendering of a `(lower, upper)` bounds pair in the report. -/
def boundsRepr (b : Option ℚ × Option ℚ) : String :=
  "(" ++ boundRepr b.1 ++ ", " ++ boundRepr b.2 ++ ")"

/-- The declared bounds of `recovery_vol`: the spec gives domain `(0, 1]`
realized with a practical lower bound `1e-8` (to avoid division by zero) and
an upper bound slightly above 1 (`1.0000001`, tolerating solver overshoot);
the test suite's expected report pins exactly these values. -/
def recovery_vol_bounds : Option ℚ × Option ℚ :=
  (some (mkRat 1 100000000), some (mkRat 10000001 10000000))

/-- The declared bounds of `removal_frac_mass_solute[j]`: lower bound 0 and no
upper bound, as pinned by the test suite's expected report, which shows
`(0, None)` for every Solute Removal row. -/
def removal_frac_mass_solute_bounds : Option ℚ × Option ℚ := (some 0, none)

/-- One row of the report's "Variables" table: display key, current value,
fixed flag and declared bounds. -/
structure VarTableRow where
  key : String
  value : String
  fixed : String
  bounds : String
deriving DecidableEq

/-- The rows of the report's "Variables" table. Modelled from the spec: each
declared performance variable is listed with its current value, whether it is
fixed, and its declared bounds, sorted by display key (spec section 4.1); the
indexed `removal_frac_mass_solute` variable contributes one row per solute,
keyed `Solute Removal [j]`, and `recovery_vol` one row keyed
`Water Recovery`. -/
def perfVariableRows (u : SIDOUnit) : List VarTableRow :=
  u.solute_list.map (fun j =>
    { key := "Solute Removal [" ++ j ++ "]"
      value := fmtG5 (u.removal_frac_mass_solute j)
      fixed := pyBool (u.removal_frac_fixed j)
      bounds := boundsRepr removal_frac_mass_solute_bounds })
  ++ [{ key := "Water Recovery"
        value := fmtG5 u.recovery_vol
        fixed := pyBool u.recovery_vol_fixed
        bounds := boundsRepr recovery_vol_bounds }]

/-- True when the rows of a variables table appear in strictly increasing
order of display key. -/
def sortedByKey : List VarTableRow → Bool
  | [] => true
  | [_] => true
  | a :: b :: rest =>
      (compare a.key b.key == Ordering.lt) && sortedByKey (b :: rest)

/-- The stream-table column headers: one column per stream. -/
def streamTableHeader : List String := ["Inlet", "Treated", "Byproduct"]

/-- The rows of the report's "Stream Table": `flow_vol` first, then one row
per solute's `conc_mass_comp`, each row carrying the label and the Inlet,
Treated and Byproduct cells. The fixed inlet values render with
`fmtFixedVal`; the computed outlet values render with five significant
digits. -/
def streamTableRows (u : SIDOUnit) : List (List String) :=
  ["Volumetric Flowrate", fmtFixedVal u.properties_in.flow_vol,
   fmtG5 u.properties_treated.flow_vol, fmtG5 u.properties_byproduct.flow_vol]
  :: u.solute_list.map (fun j =>
    ["Mass Concentration " ++ j,
     fmtFixedVal (u.properties_in.conc_mass_comp j),
     fmtG5 (u.properties_treated.conc_mass_comp j),
     fmtG5 (u.properties_byproduct.conc_mass_comp j)])

/-- The content of the fixed two-section report: the "Unit Performance"
section with the variables table, followed by the "Stream Table" section.
Modelled from the spec (section 4.1, "Reporting contract"); the surrounding
column padding and divider lines are produced by the external framework's
stream-table renderer, which the spec excludes from the core
(spec section 1). -/
structure SIDOReport where
  performance_section : String
  variable_rows : List VarTableRow
  stream_header : List String
  stream_rows : List (List String)
deriving DecidableEq

/-- The `report()` call of a SIDO unit: the two sections in their fixed
order. -/
def report (u : SIDOUnit) : SIDOReport :=
  { performance_section := "Unit Performance"
    variable_rows := perfVariableRows u
    stream_header := streamTableHeader
    stream_rows := streamTableRows u }

/-- The worked-example inlet concentrations of the test fixture:
`A ↦ 10`, `B ↦ 20`, `C ↦ 30`, other identifiers unused. -/
def inlet_conc_worked : String → ℚ := fun j =>
  if j = "A" then 10 else if j = "B" then 20 else if j = "C" then 30 else 0

/-- The worked-example removal fractions of the test fixture:
`A ↦ 0.1`, `B ↦ 0.2`, `C ↦ 0.3`, other identifiers unused. -/
def removal_worked : String → ℚ := fun j =>
  if j = "A" then mkRat 1 10
  else if j = "B" then mkRat 2 10
  else if j = "C" then mkRat 3 10 else 0

/-- The SIDO unit of the test fixture, as built and fixed by the test suite:
solute set `{A, B, C}`, inlet flow 42, inlet concentrations 10/20/30,
`recovery_vol = 0.8`, removal fractions 0.1/0.2/0.3, outlets not yet
computed. -/
def sido_worked : SIDOUnit :=
  { solute_list := ["A", "B", "C"]
    properties_in := { flow_vol := 42, conc_mass_comp := inlet_conc_worked }
    properties_treated := { flow_vol := 0, conc_mass_comp := fun _ => 0 }
    properties_byproduct := { flow_vol := 0, conc_mass_comp := fun _ => 0 }
    recovery_vol := mkRat 8 10
    removal_frac_mass_solute := removal_worked
    recovery_vol_fixed := true
    removal_frac_fixed := fun _ => true }

/-- The worked-example unit after seeding; because the seeding lands exactly on
the algebraic solution, this is also the solved state the test suite checks. -/
def sido_worked_solved : SIDOUnit := init_sido sido_worked

/-- C10: the initialization procedure is idempotent and deterministic. First
conjunct: re-running `initialize_sido` on an already-seeded unit reproduces
exactly the same seeded state. Second conjunct: the seeded values of the
unknowns depend only on the fixed inputs (inlet state, `recovery_vol`,
`removal_frac_mass_solute`) — transplanting those inputs onto any other unit
`v` yields identical seeded treated and byproduct blocks, so no hidden state
influences the seeding. -/
theorem sido_initialization_idempotent :
    (∀ u : SIDOUnit, init_sido (init_sido u) = init_sido u) ∧
    (∀ u v : SIDOUnit,
      (init_sido { v with
          properties_in := u.properties_in,
          recovery_vol := u.recovery_vol,
          removal_frac_mass_solute := u.removal_frac_mass_solute }).properties_treated
        = (init_sido u).properties_treated ∧
      (init_sido { v with
          properties_in := u.properties_in,
          recovery_vol := u.recovery_vol,
          removal_frac_mass_solute := u.removal_frac_mass_solute }).properties_byproduct
        = (init_sido u).properties_byproduct) :=
  ⟨fun _ => rfl, fun _ _ => ⟨rfl, rfl⟩⟩

/-- C1: for any SIDO unit over the solute set `{A, B, C}` whose inlet and
performance parameters are fixed to the worked-example values
(`flow_vol = 42`, `conc = [A:10, B:20, C:30]`, `recovery_vol = 0.8`,
`removal_frac = [A:0.1, B:0.2, C:0.3]`), every solved (feasible) state has
exactly the outlet values asserted by the test suite:
`treated.flow_vol = 33.6`, `byproduct.flow_vol = 8.4`,
`treated.conc = [A:11.25, B:20, C:26.25]`,
`byproduct.conc = [A:5, B:20, C:45]`. The equalities are exact in `ℚ`, hence
in particular within the claimed relative tolerance `1e-5`. -/
theorem sido_worked_example_solution (u : SIDOUnit)
    (hs : u.solute_list = ["A", "B", "C"])
    (hf : u.properties_in.flow_vol = 42)
    (hcA : u.properties_in.conc_mass_comp "A" = 10)
    (hcB : u.properties_in.conc_mass_comp "B" = 20)
    (hcC : u.properties_in.conc_mass_comp "C" = 30)
    (hr : u.recovery_vol = mkRat 8 10)
    (hmA : u.removal_frac_mass_solute "A" = mkRat 1 10)
    (hmB : u.removal_frac_mass_solute "B" = mkRat 2 10)
    (hmC : u.removal_frac_mass_solute "C" = mkRat 3 10)
    (hfeas : sidoFeasible u) :
    u.properties_treated.flow_vol = mkRat 336 10 ∧
    u.properties_byproduct.flow_vol = mkRat 84 10 ∧
    u.properties_treated.conc_mass_comp "A" = mkRat 1125 100 ∧
    u.properties_byproduct.conc_mass_comp "A" = 5 ∧
    u.properties_treated.conc_mass_comp "B" = 20 ∧
    u.properties_byproduct.conc_mass_comp "B" = 20 ∧
    u.properties_treated.conc_mass_comp "C" = mkRat 2625 100 ∧
    u.properties_byproduct.conc_mass_comp "C" = 45 := by
  obtain ⟨hwr, hfb, hsol⟩ := hfeas
  obtain ⟨hrA, htA⟩ := hsol "A" (by rw [hs]; simp)
  obtain ⟨hrB, htB⟩ := hsol "B" (by rw [hs]; simp)
  obtain ⟨hrC, htC⟩ := hsol "C" (by rw [hs]; simp)
  unfold water_recovery_equation at hwr
  unfold flow_balance at hfb
  unfold solute_removal_equation at hrA hrB hrC
  unfold solute_treated_equation at htA htB htC
  simp only [Rat.mkRat_eq_div] at hr hmA hmB hmC ⊢
  have hT : u.properties_treated.flow_vol = (168 : ℚ) / 5 := by
    rw [← hwr, hr, hf]; norm_num
  have hBy : u.properties_byproduct.flow_vol = (42 : ℚ) / 5 := by
    rw [hf, hT] at hfb; linarith
  rw [hf, hBy] at hrA hrB hrC
  rw [hf, hT, hBy] at htA htB htC
  rw [hcA, hmA] at hrA
  rw [hcB, hmB] at hrB
  rw [hcC, hmC] at hrC
  rw [hcA] at htA
  rw [hcB] at htB
  rw [hcC] at htC
  have hbA : u.properties_byproduct.conc_mass_comp "A" = 5 := by linarith
  have hbB : u.properties_byproduct.conc_mass_comp "B" = 20 := by linarith
  have hbC : u.properties_byproduct.conc_mass_comp "C" = 45 := by linarith
  rw [hbA] at htA
  rw [hbB] at htB
  rw [hbC] at htC
  have htcA : u.properties_treated.conc_mass_comp "A" = (45 : ℚ) / 4 := by linarith
  have htcB : u.properties_treated.conc_mass_comp "B" = 20 := by linarith
  have htcC : u.properties_treated.conc_mass_comp "C" = (105 : ℚ) / 4 := by linarith
  refine ⟨by rw [hT]; norm_num, by rw [hBy]; norm_num, by rw [htcA]; norm_num,
    hbA, htcB, hbB, by rw [htcC]; norm_num, hbC⟩

unseal Rat.mul Rat.add Rat.sub Rat.inv in
/-- Witness for C1: the seeded worked-example state satisfies all hypotheses
of `sido_worked_example_solution` — it is feasible and carries the fixed
worked-example inputs — and therefore has the asserted outlet values. -/
theorem sido_worked_example_solution_witness :
    sidoFeasible sido_worked_solved ∧
    (sido_worked_solved.properties_treated.flow_vol = mkRat 336 10 ∧
     sido_worked_solved.properties_byproduct.flow_vol = mkRat 84 10 ∧
     sido_worked_solved.properties_treated.conc_mass_comp "A" = mkRat 1125 100 ∧
     sido_worked_solved.properties_byproduct.conc_mass_comp "A" = 5 ∧
     sido_worked_solved.properties_treated.conc_mass_comp "B" = 20 ∧
     sido_worked_solved.properties_byproduct.conc_mass_comp "B" = 20 ∧
     sido_worked_solved.properties_treated.conc_mass_comp "C" = mkRat 2625 100 ∧
     sido_worked_solved.properties_byproduct.conc_mass_comp "C" = 45) :=
  ⟨by decide,
   sido_worked_example_solution sido_worked_solved (by decide) (by decide)
     (by decide) (by decide) (by decide) (by decide) (by decide) (by decide)
     (by decide) (by decide)⟩

/-- C2: at every feasible (solved) state of a SIDO unit, mass is conserved:
the volumetric flow residual and, for every solute of the solute set, the
solute mass residual are within the test suite's absolute tolerance `1e-6`.
In the exact-arithmetic model the residuals are exactly zero, hence within the
tolerance. -/
theorem sido_mass_conservation (u : SIDOUnit) (hfeas : sidoFeasible u) :
    |u.properties_in.flow_vol - u.properties_treated.flow_vol
        - u.properties_byproduct.flow_vol| ≤ mkRat 1 1000000 ∧
    ∀ j ∈ u.solute_list,
      |u.properties_in.flow_vol * u.properties_in.conc_mass_comp j
          - u.properties_treated.flow_vol * u.properties_treated.conc_mass_comp j
          - u.properties_byproduct.flow_vol * u.properties_byproduct.conc_mass_comp j|
        ≤ mkRat 1 1000000 := by
  obtain ⟨hwr, hfb, hsol⟩ := hfeas
  unfold flow_balance at hfb
  have htol : (0 : ℚ) ≤ mkRat 1 1000000 := by norm_num [Rat.mkRat_eq_div]
  constructor
  · have hz : u.properties_in.flow_vol - u.properties_treated.flow_vol
        - u.properties_byproduct.flow_vol = 0 := by linarith
    rw [hz, abs_zero]; exact htol
  · intro j hj
    obtain ⟨hrj, htj⟩ := hsol j hj
    unfold solute_treated_equation at htj
    have hz : u.properties_in.flow_vol * u.properties_in.conc_mass_comp j
        - u.properties_treated.flow_vol * u.properties_treated.conc_mass_comp j
        - u.properties_byproduct.flow_vol * u.properties_byproduct.conc_mass_comp j
        = 0 := by linarith
    rw [hz, abs_zero]; exact htol

unseal Rat.mul Rat.add Rat.sub Rat.inv in
/-- Witness for C2: the solved worked-example state is feasible, and the flow
residual and the solute-A mass residual there are within `1e-6`. -/
theorem sido_mass_conservation_witness :
    sidoFeasible sido_worked_solved ∧
    |sido_worked_solved.properties_in.flow_vol
        - sido_worked_solved.properties_treated.flow_vol
        - sido_worked_solved.properties_byproduct.flow_vol| ≤ mkRat 1 1000000 ∧
    |sido_worked_solved.properties_in.flow_vol
          * sido_worked_solved.properties_in.conc_mass_comp "A"
        - sido_worked_solved.properties_treated.flow_vol
          * sido_worked_solved.properties_treated.conc_mass_comp "A"
        - sido_worked_solved.properties_byproduct.flow_vol
          * sido_worked_solved.properties_byproduct.conc_mass_comp "A"|
      ≤ mkRat 1 1000000 :=
  ⟨by decide,
   (sido_mass_conservation sido_worked_solved (by decide)).1,
   (sido_mass_conservation sido_worked_solved (by decide)).2 "A" (by decide)⟩

/-- C3: after `calculate_scaling_factors_sido` runs on any SIDO unit — in
particular for every choice of fixed inlet values carried by the unit — the
flow-type constraints `water_recovery_equation` and `flow_balance` receive the
constraint scaling factor exactly `1e3`, and every indexed member of the
solute-type constraint families receives exactly `1e5`, for every solute
index; the factors do not depend on the unit's variable values. -/
theorem sido_scaling_factors_deterministic (u : SIDOUnit) (j : String) :
    calculate_scaling_factors_sido u SIDOConstraint.water_recovery_equation = 1000 ∧
    calculate_scaling_factors_sido u SIDOConstraint.flow_balance = 1000 ∧
    calculate_scaling_factors_sido u (SIDOConstraint.solute_removal_equation j) = 100000 ∧
    calculate_scaling_factors_sido u (SIDOConstraint.solute_treated_equation j) = 100000 :=
  ⟨rfl, rfl, rfl, rfl⟩

/-- C4: for every solute set, once the inlet variables and all performance
parameters are fixed, the SIDO unit has exactly zero remaining degrees of
freedom: free variables minus equations equals zero. -/
theorem sido_zero_degrees_of_freedom :
    ∀ solutes : List String, sido_degrees_of_freedom solutes = 0 := by
  intro solutes
  simp only [sido_degrees_of_freedom, sidoVariables, sidoFixedVariables,
    sidoConstraintList, List.length_append, List.length_map, List.length_cons,
    List.length_nil]
  push_cast
  ring

/-- C7: `build_sido` generates exactly the four constraint families of the
four section-3 invariants. For every solute set, the generated constraint
list has exactly one `water_recovery_equation` member and one `flow_balance`
member (scalar families) and one `solute_removal_equation` and one
`solute_treated_equation` member per solute; for the three-solute set
`{A, B, C}` the family names of the generated members are exactly the four
exposed names, with three members in each solute-indexed family. -/
theorem sido_constraint_families :
    (∀ solutes : List String,
      (sidoConstraintList solutes).countP SIDOConstraint.isWaterRecovery = 1 ∧
      (sidoConstraintList solutes).countP SIDOConstraint.isFlowBalance = 1 ∧
      (sidoConstraintList solutes).countP SIDOConstraint.isSoluteRemoval
        = solutes.length ∧
      (sidoConstraintList solutes).countP SIDOConstraint.isSoluteTreated
        = solutes.length) ∧
    (sidoConstraintList ["A", "B", "C"]).map SIDOConstraint.familyName
      = ["water_recovery_equation", "flow_balance",
         "solute_removal_equation", "solute_removal_equation",
         "solute_removal_equation", "solute_treated_equation",
         "solute_treated_equation", "solute_treated_equation"] ∧
    (sidoConstraintList ["A", "B", "C"]).countP SIDOConstraint.isSoluteRemoval = 3 ∧
    (sidoConstraintList ["A", "B", "C"]).countP SIDOConstraint.isSoluteTreated = 3 := by
  refine ⟨fun solutes => ?_, by decide, by decide, by decide⟩
  have hrr : SIDOConstraint.isSoluteRemoval ∘ SIDOConstraint.solute_removal_equation
      = fun _ : String => true := rfl
  have hrt : SIDOConstraint.isSoluteRemoval ∘ SIDOConstraint.solute_treated_equation
      = fun _ : String => false := rfl
  have htr : SIDOConstraint.isSoluteTreated ∘ SIDOConstraint.solute_removal_equation
      = fun _ : String => false := rfl
  have htt : SIDOConstraint.isSoluteTreated ∘ SIDOConstraint.solute_treated_equation
      = fun _ : String => true := rfl
  simp [sidoConstraintList, List.countP_append, List.countP_map, List.countP_cons,
    SIDOConstraint.isWaterRecovery, SIDOConstraint.isFlowBalance,
    SIDOConstraint.isSoluteRemoval, SIDOConstraint.isSoluteTreated,
    hrr, hrt, htr, htt, List.countP_true, List.countP_false]

/-- C8 counterexample: the claim says `build_sido` attaches "exactly two"
boundary ports while naming three (`inlet`, `treated`, `byproduct`); the built
unit has three boundary ports, so the count "two" is false. -/
theorem sido_two_ports_counterexample :
    sido_ports.length = 3 ∧ ¬ sido_ports.length = 2 := by decide

/-- C8 (amended): `build_sido` attaches exactly three boundary ports, named
`inlet`, `treated` and `byproduct`, each exposing `flow_vol` and
`conc_mass_comp` for connection to neighboring units. -/
theorem sido_three_ports :
    sido_ports.map UnitPort.name = ["inlet", "treated", "byproduct"] ∧
    sido_ports.length = 3 ∧
    sido_ports.all (fun p =>
      p.port_members.contains "flow_vol"
        && p.port_members.contains "conc_mass_comp") = true := by decide

/-- C9: after build, the routing attributes have exactly the stated values:
the bare `DerivedSIDO` unit's technology tag is unset while
`ConstructedWetlandsZOData.build` sets it to `"constructed_wetlands"`; the
SIDO stream-table dictionary maps exactly `Inlet`, `Treated` and `Byproduct`
to the corresponding ports; and the performance-variable dictionary maps
exactly `Water Recovery` to `recovery_vol` and `Solute Removal` to
`removal_frac_mass_solute`. -/
theorem sido_private_attributes :
    derived_sido_attrs.tech_type = none ∧
    constructed_wetlands_attrs.tech_type = some "constructed_wetlands" ∧
    derived_sido_attrs.stream_table_names
      = [("Inlet", "inlet"), ("Treated", "treated"), ("Byproduct", "byproduct")] ∧
    derived_sido_attrs.perf_var_names
      = [("Water Recovery", "recovery_vol"),
         ("Solute Removal", "removal_frac_mass_solute")] := by decide

unseal Rat.mul Rat.add Rat.sub Rat.inv in
/-- C5: `report()` on the solved worked-example unit produces exactly the
fixed two-section content: the "Variables" table rows (sorted by display key,
each with value, fixed flag and bounds) and the "Stream Table" with one column
per stream for `flow_vol` and each solute's `conc_mass_comp`, with the exact
five-significant-digit strings `0.10000`, `0.80000`, `33.600`, `8.4000`,
`11.250`, `5.0000`, `20.000`, `26.250`, `45.000` asserted by the test
suite. -/
theorem sido_report_worked_example :
    report sido_worked_solved =
      { performance_section := "Unit Performance"
        variable_rows :=
          [{ key := "Solute Removal [A]", value := "0.10000",
             fixed := "True", bounds := "(0, None)" },
           { key := "Solute Removal [B]", value := "0.20000",
             fixed := "True", bounds := "(0, None)" },
           { key := "Solute Removal [C]", value := "0.30000",
             fixed := "True", bounds := "(0, None)" },
           { key := "Water Recovery", value := "0.80000",
             fixed := "True", bounds := "(1e-08, 1.0000001)" }]
        stream_header := ["Inlet", "Treated", "Byproduct"]
        stream_rows :=
          [["Volumetric Flowrate", "42", "33.600", "8.4000"],
           ["Mass Concentration A", "10", "11.250", "5.0000"],
           ["Mass Concentration B", "20", "20.000", "20.000"],
           ["Mass Concentration C", "30", "26.250", "45.000"]] } ∧
    sortedByKey (report sido_worked_solved).variable_rows = true := by
  constructor
  · decide
  · decide

/-- C6 counterexample: the claim gives `removal_frac_mass_solute[j]` the
domain `[0, 1]`, but the built variable has no upper bound at all — its bounds
pair, as displayed by the report the test suite pins, is `(0, None)`, not
`(0, 1)`. -/
theorem sido_removal_bounds_counterexample :
    removal_frac_mass_solute_bounds.2 = none ∧
    ¬ removal_frac_mass_solute_bounds.2 = some 1 := by decide

/-- C6 (amended): after `build_sido`, `recovery_vol` carries lower bound
`1e-8` and upper bound `1.0000001` (slightly above 1, rendered exactly so by
the report), realizing the spec's domain `(0, 1]` with a positive floor; and
`removal_frac_mass_solute[j]` carries lower bound 0 and no upper bound,
rendered `(0, None)` by the report. -/
theorem sido_performance_variable_bounds :
    recovery_vol_bounds
      = (some (mkRat 1 100000000), some (mkRat 10000001 10000000)) ∧
    removal_frac_mass_solute_bounds = (some 0, none) ∧
    boundsRepr recovery_vol_bounds = "(1e-08, 1.0000001)" ∧
    boundsRepr removal_frac_mass_solute_bounds = "(0, None)" ∧
    (1 : ℚ) < mkRat 10000001 10000000 ∧
    mkRat 10000001 10000000 < mkRat 101 100 ∧
    (0 : ℚ) < mkRat 1 100000000 := by decide

end WaterTAP
